import Mathlib

/-!
Shallow embedding of the GML value engine (`src/gml/value.rs`): the
two-variant dynamically typed scalar `Value` and its comparison,
arithmetic, bitwise and logical operators.  Rust `f64` reals are
modelled as exact rationals (`ℚ`); Rust `i32` integers as `ℤ` with
explicit twos-complement wrapping (`asI32`) where the source performs
32-bit arithmetic; fallible operators return `Except Error Value`; the
in-place "assign" operators (`&mut self` in the source) are modelled by
explicit state passing, returning the operation result paired with the
final contents of the destination slot.
-/

namespace GML

/-- Modelled from the spec: the engine-wide constant `TRUE = 1.0`
(`gml::TRUE`, declared outside the provided sources). -/
def TRUE : ℚ := 1

/-- Modelled from the spec: the engine-wide constant `FALSE = 0.0`
(`gml::FALSE`, declared outside the provided sources). -/
def FALSE : ℚ := 0

/-- Modelled from the spec: `util::ieee_round` (declared outside the
provided sources) "rounds a real to the nearest integer using
round-half-away-from-zero semantics (not round half to even)".  The
source signature returns `i32`; the spec does not define behavior for
reals outside the `i32` range, so the model returns the mathematical
nearest integer (ties away from zero) as an unbounded `ℤ`. -/
def ieee_round (x : ℚ) : ℤ :=
  if 0 ≤ x then ⌊x + 1 / 2⌋ else -⌊-x + 1 / 2⌋

/-- Interpret an unbounded integer as a 32-bit twos-complement signed
integer (the value a Rust `i32` holding its low 32 bits would have). -/
def asI32 (n : ℤ) : ℤ :=
  (n + 2 ^ 31) % 2 ^ 32 - 2 ^ 31

/-- The epsilon used by every epsilon-tolerant real comparison in the
engine: the literal `1e-14` of `value.rs`. -/
def eps : ℚ := 1 / 10 ^ 14

/-- Operator identities (`gml::compiler::token::Operator`, declared
outside the provided sources): an opaque tag embedded in errors, listed
here exactly as named at the `invalid_op!` call sites of `value.rs`. -/
inductive Operator
  | Equal | NotEqual | LessThan | LessThanOrEqual | GreaterThan | GreaterThanOrEqual
  | Complement | IntDivide | Add | AssignAdd | BitwiseAnd | AssignBitwiseAnd
  | BitwiseOr | AssignBitwiseOr | BitwiseXor | AssignBitwiseXor
  | Divide | AssignDivide | Modulo | Multiply | AssignMultiply
  | Subtract | AssignSubtract | Not | BinaryShiftLeft | BinaryShiftRight
  deriving DecidableEq

/-- The GML scalar: `enum Value { Real(f64), Str(Rc<str>) }`.  Reals are
modelled as exact rationals; the shared immutable string buffer as a
Lean `String` (cloning shares, so a clone is the identical string). -/
inductive Value
  | Real (r : ℚ)
  | Str (s : String)
  deriving DecidableEq

/-- Modelled from the spec: `gml::Error` (declared outside the provided
sources) — a typed error carrying the failing operator identity and the
offending operand(s), one for unary operators, both in left/right order
for binary operators. -/
inductive Error
  | InvalidOperandsUnary (op : Operator) (v : Value)
  | InvalidOperandsBinary (op : Operator) (l r : Value)
  deriving DecidableEq

/-- `gml_eq` (the `gml_cmp_impl!` expansion tagged `Equal`): real
comparator `|r1 - r2| <= 1e-14`, string comparator `s1 == s2`. -/
def Value.gml_eq : Value → Value → Except Error Value
  | .Real a, .Real b => if |a - b| ≤ eps then .ok (.Real TRUE) else .ok (.Real FALSE)
  | .Str a, .Str b => if a = b then .ok (.Real TRUE) else .ok (.Real FALSE)
  | a, b => .error (.InvalidOperandsBinary .Equal a b)

/-- `gml_ne` (tagged `NotEqual`): real comparator `|r1 - r2| > 1e-14`,
string comparator `s1 != s2`. -/
def Value.gml_ne : Value → Value → Except Error Value
  | .Real a, .Real b => if |a - b| > eps then .ok (.Real TRUE) else .ok (.Real FALSE)
  | .Str a, .Str b => if a ≠ b then .ok (.Real TRUE) else .ok (.Real FALSE)
  | a, b => .error (.InvalidOperandsBinary .NotEqual a b)

/-- `gml_lt` (tagged `LessThan`): real comparator `r1 < r2` (strict, no
epsilon), string comparator `s1 < s2`. -/
def Value.gml_lt : Value → Value → Except Error Value
  | .Real a, .Real b => if a < b then .ok (.Real TRUE) else .ok (.Real FALSE)
  | .Str a, .Str b => if a < b then .ok (.Real TRUE) else .ok (.Real FALSE)
  | a, b => .error (.InvalidOperandsBinary .LessThan a b)

/-- `gml_lte` (tagged `LessThanOrEqual`): real comparator
`r1 < r2 || |r1 - r2| <= 1e-14`, string comparator `s1 <= s2`. -/
def Value.gml_lte : Value → Value → Except Error Value
  | .Real a, .Real b =>
    if a < b ∨ |a - b| ≤ eps then .ok (.Real TRUE) else .ok (.Real FALSE)
  | .Str a, .Str b => if a ≤ b then .ok (.Real TRUE) else .ok (.Real FALSE)
  | a, b => .error (.InvalidOperandsBinary .LessThanOrEqual a b)

/-- `gml_gt` (tagged `GreaterThan`): real comparator `r1 > r2` (strict,
no epsilon), string comparator `s1 > s2`. -/
def Value.gml_gt : Value → Value → Except Error Value
  | .Real a, .Real b => if a > b then .ok (.Real TRUE) else .ok (.Real FALSE)
  | .Str a, .Str b => if a > b then .ok (.Real TRUE) else .ok (.Real FALSE)
  | a, b => .error (.InvalidOperandsBinary .GreaterThan a b)

/-- `gml_gte` (tagged `GreaterThanOrEqual`): real comparator
`r1 > r2 || |r1 - r2| <= 1e-14`, string comparator `s1 >= s2`. -/
def Value.gml_gte : Value → Value → Except Error Value
  | .Real a, .Real b =>
    if a > b ∨ |a - b| ≤ eps then .ok (.Real TRUE) else .ok (.Real FALSE)
  | .Str a, .Str b => if a ≥ b then .ok (.Real TRUE) else .ok (.Real FALSE)
  | a, b => .error (.InvalidOperandsBinary .GreaterThanOrEqual a b)

/-- `Value::almost_equals`: native-boolean comparison, true iff both
operands share a variant and are epsilon-equal reals or equal strings;
mismatched variants yield `false`. -/
def Value.almost_equals : Value → Value → Bool
  | .Real a, .Real b => decide (|a - b| ≤ eps)
  | .Str a, .Str b => a = b
  | _, _ => false

/-- `Value::round`: `ieee_round` on a real, `0` on a string. -/
def Value.round : Value → ℤ
  | .Real f => ieee_round f
  | .Str _ => 0

/-- `Value::is_truthy`: a real is truthy iff `>= 0.5`; a string never. -/
def Value.is_truthy : Value → Bool
  | .Real f => decide ((1 : ℚ) / 2 ≤ f)
  | .Str _ => false

/-- `Value::complement`: `!(ieee_round(val) as i32) as f64` on a real
(`Int.not n = -n - 1`, the twos-complement complement); the invalid
unary operand error tagged `Complement` otherwise. -/
def Value.complement : Value → Except Error Value
  | .Real val => .ok (.Real ((Int.not (ieee_round val) : ℤ) : ℚ))
  | v => .error (.InvalidOperandsUnary .Complement v)

/-- `Value::intdiv`: `(lhs / rhs).floor()` on two reals. -/
def Value.intdiv : Value → Value → Except Error Value
  | .Real lhs, .Real rhs => .ok (.Real ((⌊lhs / rhs⌋ : ℤ) : ℚ))
  | x, y => .error (.InvalidOperandsBinary .IntDivide x y)

/-- `Value::bool_and` (GML `&&`): always `Ok`, `1.0` iff both operands
are truthy. -/
def Value.bool_and (self rhs : Value) : Except Error Value :=
  .ok (if self.is_truthy && rhs.is_truthy then .Real 1 else .Real 0)

/-- `Value::bool_or` (GML `||`): always `Ok`, `1.0` iff either operand
is truthy. -/
def Value.bool_or (self rhs : Value) : Except Error Value :=
  .ok (if self.is_truthy || rhs.is_truthy then .Real 1 else .Real 0)

/-- `Value::bool_xor` (GML `^^`): always `Ok`, `1.0` iff the operands
differ in truthiness. -/
def Value.bool_xor (self rhs : Value) : Except Error Value :=
  .ok (if self.is_truthy != rhs.is_truthy then .Real 1 else .Real 0)

/-- `str::repeat`: the string repeated `n` times. -/
def strRepeat (s : String) : Nat → String
  | 0 => ""
  | n + 1 => s ++ strRepeat s n

/-- `Value::add`: real addition, or string concatenation into a fresh
buffer; any other variant combination is the invalid binary operands
error tagged `Add`. -/
def Value.add : Value → Value → Except Error Value
  | .Real lhs, .Real rhs => .ok (.Real (lhs + rhs))
  | .Str lhs, .Str rhs => .ok (.Str (lhs ++ rhs))
  | x, y => .error (.InvalidOperandsBinary .Add x y)

/-- `Value::add_assign` (`&mut self`, state-passing model): the result
of the call paired with the slot contents afterwards.  The error arm of
the source constructs the error from a clone of the untouched slot, so
the slot component there is the initial value. -/
def Value.add_assign : Value → Value → Except Error Unit × Value
  | .Real lhs, .Real rhs => (.ok (), .Real (lhs + rhs))
  | .Str lhs, .Str rhs => (.ok (), .Str (lhs ++ rhs))
  | x, y => (.error (.InvalidOperandsBinary .AssignAdd x y), x)

/-- `Value::bitand`: both operands rounded to `i32` by `ieee_round`,
32-bit AND (`Int.land` agrees with `i32` AND on in-range operands and
keeps them in range), result widened back to a real. -/
def Value.bitand : Value → Value → Except Error Value
  | .Real lhs, .Real rhs =>
    .ok (.Real ((Int.land (ieee_round lhs) (ieee_round rhs) : ℤ) : ℚ))
  | x, y => .error (.InvalidOperandsBinary .BitwiseAnd x y)

/-- `Value::bitand_assign` (state-passing model of `&mut self`). -/
def Value.bitand_assign : Value → Value → Except Error Unit × Value
  | .Real lhs, .Real rhs =>
    (.ok (), .Real ((Int.land (ieee_round lhs) (ieee_round rhs) : ℤ) : ℚ))
  | x, y => (.error (.InvalidOperandsBinary .AssignBitwiseAnd x y), x)

/-- `Value::bitor`: rounded operands, 32-bit OR, widened back. -/
def Value.bitor : Value → Value → Except Error Value
  | .Real lhs, .Real rhs =>
    .ok (.Real ((Int.lor (ieee_round lhs) (ieee_round rhs) : ℤ) : ℚ))
  | x, y => .error (.InvalidOperandsBinary .BitwiseOr x y)

/-- `Value::bitor_assign` (state-passing model of `&mut self`). -/
def Value.bitor_assign : Value → Value → Except Error Unit × Value
  | .Real lhs, .Real rhs =>
    (.ok (), .Real ((Int.lor (ieee_round lhs) (ieee_round rhs) : ℤ) : ℚ))
  | x, y => (.error (.InvalidOperandsBinary .AssignBitwiseOr x y), x)

/-- `Value::bitxor`: rounded operands, 32-bit XOR, widened back. -/
def Value.bitxor : Value → Value → Except Error Value
  | .Real lhs, .Real rhs =>
    .ok (.Real ((Int.xor (ieee_round lhs) (ieee_round rhs) : ℤ) : ℚ))
  | x, y => .error (.InvalidOperandsBinary .BitwiseXor x y)

/-- `Value::bitxor_assign` (state-passing model of `&mut self`). -/
def Value.bitxor_assign : Value → Value → Except Error Unit × Value
  | .Real lhs, .Real rhs =>
    (.ok (), .Real ((Int.xor (ieee_round lhs) (ieee_round rhs) : ℤ) : ℚ))
  | x, y => (.error (.InvalidOperandsBinary .AssignBitwiseXor x y), x)

/-- `Value::div`: real division on two reals (the `f64` quotient is
modelled as the exact rational quotient; IEEE-754 special results for a
zero divisor are outside this exact-arithmetic model). -/
def Value.div : Value → Value → Except Error Value
  | .Real lhs, .Real rhs => .ok (.Real (lhs / rhs))
  | x, y => .error (.InvalidOperandsBinary .Divide x y)

/-- `Value::div_assign` (state-passing model of `&mut self`). -/
def Value.div_assign : Value → Value → Except Error Unit × Value
  | .Real lhs, .Real rhs => (.ok (), .Real (lhs / rhs))
  | x, y => (.error (.InvalidOperandsBinary .AssignDivide x y), x)

/-- Truncation toward zero, as used by the floating-point remainder. -/
def qtrunc (x : ℚ) : ℤ := if 0 ≤ x then ⌊x⌋ else ⌈x⌉

/-- Rust `f64 %` (`fmod`): remainder with the sign of the dividend,
`a - b * trunc(a / b)`, modelled over exact rationals. -/
def fmod (a b : ℚ) : ℚ := a - b * (qtrunc (a / b) : ℚ)

/-- `Value::modulo`: `lhs % rhs` on two reals. -/
def Value.modulo : Value → Value → Except Error Value
  | .Real lhs, .Real rhs => .ok (.Real (fmod lhs rhs))
  | x, y => .error (.InvalidOperandsBinary .Modulo x y)

/-- `Value::mul`: real multiplication; a real left operand with a
string right operand repeats the string `ieee_round(lhs)` times when
that count is positive and yields the empty string otherwise; every
other combination is the invalid binary operands error tagged
`Multiply`. -/
def Value.mul : Value → Value → Except Error Value
  | .Real lhs, .Real rhs => .ok (.Real (lhs * rhs))
  | .Real lhs, .Str rhs =>
    .ok (if 0 < ieee_round lhs then .Str (strRepeat rhs (ieee_round lhs).toNat) else .Str "")
  | x, y => .error (.InvalidOperandsBinary .Multiply x y)

/-- `Value::mul_assign` (state-passing model of `&mut self`): only the
real-by-real arm exists in the source; every other combination —
including a real slot with a string right operand, which `mul`
accepts — is the invalid binary operands error tagged
`AssignMultiply`. -/
def Value.mul_assign : Value → Value → Except Error Unit × Value
  | .Real lhs, .Real rhs => (.ok (), .Real (lhs * rhs))
  | x, y => (.error (.InvalidOperandsBinary .AssignMultiply x y), x)

/-- `Value::neg`: sign flip of a real; the invalid unary operand error
tagged `Subtract` on a string. -/
def Value.neg : Value → Except Error Value
  | .Real f => .ok (.Real (-f))
  | v => .error (.InvalidOperandsUnary .Subtract v)

/-- `Value::not`: `1.0` iff the real operand is not truthy; the invalid
unary operand error tagged `Not` on a string. -/
def Value.not : Value → Except Error Value
  | .Real f => .ok (.Real (if (Value.Real f).is_truthy then 0 else 1))
  | v => .error (.InvalidOperandsUnary .Not v)

/-- Rust `i32` left shift `a << s`.  A shift amount outside `[0, 32)`
is an arithmetic overflow of the shift operator itself — a panic in
debug builds (release builds mask the amount instead) — modelled as
`none`; for an in-range amount the result keeps the low 32 bits of
`a * 2 ^ s`, read as twos complement. -/
def i32_shl (a s : ℤ) : Option ℤ :=
  if 0 ≤ s ∧ s < 32 then some (asI32 (a * 2 ^ s.toNat)) else none

/-- Rust `i32` arithmetic right shift `a >> s`: same overflow rule for
the shift amount; for an in-range amount the result is the
sign-extending shift, i.e. floor division by `2 ^ s`. -/
def i32_shr (a s : ℤ) : Option ℤ :=
  if 0 ≤ s ∧ s < 32 then some (Int.fdiv a (2 ^ s.toNat)) else none

/-- `Value::shl`: both operands rounded to `i32`, native 32-bit left
shift, result widened back to a real.  The outer `Option` carries the
host shift overflow abort (`none`); `some` results are the ordinary
`gml::Result`. -/
def Value.shl : Value → Value → Option (Except Error Value)
  | .Real lhs, .Real rhs =>
    (i32_shl (ieee_round lhs) (ieee_round rhs)).map fun r => .ok (.Real (r : ℚ))
  | x, y => some (.error (.InvalidOperandsBinary .BinaryShiftLeft x y))

/-- `Value::shr`: both operands rounded to `i32`, native 32-bit
arithmetic right shift, result widened back to a real. -/
def Value.shr : Value → Value → Option (Except Error Value)
  | .Real lhs, .Real rhs =>
    (i32_shr (ieee_round lhs) (ieee_round rhs)).map fun r => .ok (.Real (r : ℚ))
  | x, y => some (.error (.InvalidOperandsBinary .BinaryShiftRight x y))

/-- `Value::sub`: real subtraction on two reals. -/
def Value.sub : Value → Value → Except Error Value
  | .Real lhs, .Real rhs => .ok (.Real (lhs - rhs))
  | x, y => .error (.InvalidOperandsBinary .Subtract x y)

/-- `Value::sub_assign` (state-passing model of `&mut self`). -/
def Value.sub_assign : Value → Value → Except Error Unit × Value
  | .Real lhs, .Real rhs => (.ok (), .Real (lhs - rhs))
  | x, y => (.error (.InvalidOperandsBinary .AssignSubtract x y), x)

/-- The truthiness rule as a proposition: a real is truthy iff
it is at least `0.5`; a string is never truthy. -/
def truthyP : Value → Prop
  | .Real f => (1 : ℚ) / 2 ≤ f
  | .Str _ => False

instance (v : Value) : Decidable (truthyP v) :=
  match v with
  | .Real f => inferInstanceAs (Decidable ((1 : ℚ) / 2 ≤ f))
  | .Str _ => isFalse fun h => h

/-- A non-mutating binary operator and its "assign" form agree on the
given operands: the assign form succeeds exactly when the operator
does, and on success the slot afterwards holds exactly the operator
result. -/
def AssignAgrees (f : Value → Value → Except Error Value)
    (g : Value → Value → Except Error Unit × Value) (s r : Value) : Prop :=
  ((∃ v, f s r = .ok v) ↔ (g s r).1 = .ok ()) ∧
  (∀ v, f s r = .ok v → (g s r).2 = v)

/-! Helper lemmas about the rounding rule. -/

/-- Computation rule for `ieee_round` on a nonnegative rational with
known floor bounds. -/
theorem ieee_round_eq_of_bounds (x : ℚ) (n : ℤ) (h0 : 0 ≤ x)
    (h1 : (n : ℚ) ≤ x + 1 / 2) (h2 : x + 1 / 2 < n + 1) : ieee_round x = n := by
  unfold ieee_round
  rw [if_pos h0]
  exact Int.floor_eq_iff.mpr ⟨h1, h2⟩

/-- Computation rule for `ieee_round` on a negative rational with known
floor bounds for the mirrored argument. -/
theorem ieee_round_eq_of_bounds_neg (x : ℚ) (n : ℤ) (h0 : ¬ 0 ≤ x)
    (h1 : ((-n : ℤ) : ℚ) ≤ -x + 1 / 2) (h2 : -x + 1 / 2 < (-n : ℤ) + 1) :
    ieee_round x = n := by
  unfold ieee_round
  rw [if_neg h0]
  rw [Int.floor_eq_iff.mpr ⟨h1, h2⟩]
  ring

/-- The rounded value is within half a unit of the argument. -/
theorem abs_sub_ieee_round_le_half (r : ℚ) : |r - (ieee_round r : ℚ)| ≤ 1 / 2 := by
  unfold ieee_round
  by_cases h : 0 ≤ r
  · rw [if_pos h]
    have h1 : (⌊r + 1 / 2⌋ : ℚ) ≤ r + 1 / 2 := Int.floor_le _
    have h2 : r + 1 / 2 < ⌊r + 1 / 2⌋ + 1 := Int.lt_floor_add_one _
    rw [abs_le]
    constructor <;> linarith
  · rw [if_neg h]
    have h1 : (⌊-r + 1 / 2⌋ : ℚ) ≤ -r + 1 / 2 := Int.floor_le _
    have h2 : -r + 1 / 2 < ⌊-r + 1 / 2⌋ + 1 := Int.lt_floor_add_one _
    rw [abs_le]
    push_cast
    constructor <;> linarith

/-- An integer within half a unit of a rational is a nearest integer. -/
theorem nearest_of_abs_sub_le_half (x : ℚ) (n m : ℤ) (h : |x - (n : ℚ)| ≤ 1 / 2) :
    |x - (n : ℚ)| ≤ |x - (m : ℚ)| := by
  by_cases hnm : m = n
  · subst hnm; exact le_refl _
  · have h1 : (1 : ℤ) ≤ |n - m| := Int.one_le_abs (sub_ne_zero.mpr fun hh => hnm hh.symm)
    have h1q : (1 : ℚ) ≤ |(n : ℚ) - (m : ℚ)| := by
      calc (1 : ℚ) = ((1 : ℤ) : ℚ) := by norm_num
      _ ≤ ((|n - m| : ℤ) : ℚ) := by exact_mod_cast h1
      _ = |(n : ℚ) - (m : ℚ)| := by push_cast [abs_sub_comm]; rw [abs_sub_comm]
    have h3 : |(n : ℚ) - (m : ℚ)| ≤ |(n : ℚ) - x| + |x - (m : ℚ)| := abs_sub_le _ _ _
    have h4 : |(n : ℚ) - x| = |x - (n : ℚ)| := abs_sub_comm _ _
    linarith

/-- When the argument is exactly halfway between two integers, the
rounded value is the one farther from zero. -/
theorem ieee_round_tie_away (r : ℚ) (h : |r - (ieee_round r : ℚ)| = 1 / 2) :
    |r| < |(ieee_round r : ℚ)| := by
  by_cases h0 : 0 ≤ r
  · have hn : ieee_round r = ⌊r + 1 / 2⌋ := by unfold ieee_round; rw [if_pos h0]
    rw [hn] at h ⊢
    have h1 : (⌊r + 1 / 2⌋ : ℚ) ≤ r + 1 / 2 := Int.floor_le _
    have h2 : r + 1 / 2 < ⌊r + 1 / 2⌋ + 1 := Int.lt_floor_add_one _
    rcases (abs_eq (by norm_num : (0:ℚ) ≤ 1 / 2)).mp h with h5 | h5
    · linarith
    · have hfl : (⌊r + 1 / 2⌋ : ℚ) = r + 1 / 2 := by linarith
      rw [hfl, abs_of_nonneg h0, abs_of_nonneg (by linarith)]
      linarith
  · have hn : ieee_round r = -⌊-r + 1 / 2⌋ := by unfold ieee_round; rw [if_neg h0]
    push_neg at h0
    rw [hn] at h ⊢
    have h1 : (⌊-r + 1 / 2⌋ : ℚ) ≤ -r + 1 / 2 := Int.floor_le _
    have h2 : -r + 1 / 2 < ⌊-r + 1 / 2⌋ + 1 := Int.lt_floor_add_one _
    rw [show ((-⌊-r + 1 / 2⌋ : ℤ) : ℚ) = -(⌊-r + 1 / 2⌋ : ℚ) by push_cast; ring] at h ⊢
    rcases (abs_eq (by norm_num : (0:ℚ) ≤ 1 / 2)).mp h with h5 | h5
    · have hfl : (⌊-r + 1 / 2⌋ : ℚ) = -r + 1 / 2 := by linarith
      rw [abs_of_neg h0, abs_of_neg (by linarith), hfl]
      linarith
    · linarith

/-- C1: `round` on a real returns a nearest integer, breaking ties away
from zero (so `round(0.5) = 1`, `round(-0.5) = -1`, `round(2.5) = 3`);
on any string it returns `0`; and the same rounding rule (`Value.round`
on the real operand) is the integer view used by the bitwise operators,
the shifts and the complement. -/
theorem c1_round_half_away_from_zero :
    (∀ r : ℚ, ∀ m : ℤ,
      |r - ((Value.round (Value.Real r) : ℤ) : ℚ)| ≤ |r - (m : ℚ)|) ∧
    (∀ r : ℚ, |r - ((Value.round (Value.Real r) : ℤ) : ℚ)| = 1 / 2 →
      |r| < |((Value.round (Value.Real r) : ℤ) : ℚ)|) ∧
    Value.round (Value.Real (1 / 2)) = 1 ∧
    Value.round (Value.Real (-(1 / 2))) = -1 ∧
    Value.round (Value.Real (5 / 2)) = 3 ∧
    (∀ s : String, Value.round (Value.Str s) = 0) ∧
    (∀ a b : ℚ, Value.bitand (Value.Real a) (Value.Real b) =
      Except.ok (Value.Real ((Int.land (Value.round (Value.Real a))
        (Value.round (Value.Real b)) : ℤ) : ℚ))) ∧
    (∀ a b : ℚ, Value.bitor (Value.Real a) (Value.Real b) =
      Except.ok (Value.Real ((Int.lor (Value.round (Value.Real a))
        (Value.round (Value.Real b)) : ℤ) : ℚ))) ∧
    (∀ a b : ℚ, Value.bitxor (Value.Real a) (Value.Real b) =
      Except.ok (Value.Real ((Int.xor (Value.round (Value.Real a))
        (Value.round (Value.Real b)) : ℤ) : ℚ))) ∧
    (∀ a b : ℚ, Value.shl (Value.Real a) (Value.Real b) =
      (i32_shl (Value.round (Value.Real a)) (Value.round (Value.Real b))).map
        fun r => Except.ok (Value.Real (r : ℚ))) ∧
    (∀ a b : ℚ, Value.shr (Value.Real a) (Value.Real b) =
      (i32_shr (Value.round (Value.Real a)) (Value.round (Value.Real b))).map
        fun r => Except.ok (Value.Real (r : ℚ))) ∧
    (∀ a : ℚ, Value.complement (Value.Real a) =
      Except.ok (Value.Real ((Int.not (Value.round (Value.Real a)) : ℤ) : ℚ))) := by
  refine ⟨?_, ?_, ?_, ?_, ?_, fun s => rfl, fun a b => rfl, fun a b => rfl,
    fun a b => rfl, fun a b => rfl, fun a b => rfl, fun a => rfl⟩
  · intro r m
    exact nearest_of_abs_sub_le_half r _ m (abs_sub_ieee_round_le_half r)
  · intro r h
    exact ieee_round_tie_away r h
  · exact ieee_round_eq_of_bounds _ _ (by norm_num) (by norm_num) (by norm_num)
  · exact ieee_round_eq_of_bounds_neg _ _ (by norm_num) (by push_cast; norm_num)
      (by push_cast; norm_num)
  · exact ieee_round_eq_of_bounds _ _ (by norm_num) (by norm_num) (by norm_num)

/-- Witness for C1 at the tie `r = 1/2`: the rounded value is `1` and
the tie is broken away from zero. -/
theorem c1_witness :
    |(1 / 2 : ℚ)| < |((Value.round (Value.Real (1 / 2)) : ℤ) : ℚ)| := by
  refine c1_round_half_away_from_zero.2.1 (1 / 2) ?_
  rw [show Value.round (Value.Real (1 / 2)) = 1 from
    c1_round_half_away_from_zero.2.2.1]
  norm_num

/-- C2 counterexample: `mul` on a real left operand and a string right
operand succeeds (string repetition), but `mul_assign` on the same
operands returns the invalid binary operands error and leaves the slot
untouched — the assign form does not succeed exactly when the
non-mutating form does. -/
theorem c2_counterexample :
    Value.mul (Value.Real 3) (Value.Str "ab") = Except.ok (Value.Str "ababab") ∧
    Value.mul_assign (Value.Real 3) (Value.Str "ab") =
      (Except.error (Error.InvalidOperandsBinary Operator.AssignMultiply
        (Value.Real 3) (Value.Str "ab")), Value.Real 3) := by
  constructor
  · simp only [Value.mul]
    rw [show ieee_round 3 = 3 from
      ieee_round_eq_of_bounds _ _ (by norm_num) (by norm_num) (by norm_num)]
    rfl
  · rfl

/-- C2 amended: each assign form that exists in the source (`add`,
`sub`, `div`, `bitand`, `bitor`, `bitxor`, and `mul` restricted to a
real right operand) succeeds exactly when its non-mutating counterpart
does and leaves the operator result in the slot; the one divergence is
`mul_assign` with a string right operand, which always fails with the
`AssignMultiply` invalid binary operands error and leaves the slot
unchanged even where `mul` would succeed. -/
theorem c2_assign_forms_agree :
    (∀ s r : Value, AssignAgrees Value.add Value.add_assign s r) ∧
    (∀ s r : Value, AssignAgrees Value.sub Value.sub_assign s r) ∧
    (∀ s r : Value, AssignAgrees Value.div Value.div_assign s r) ∧
    (∀ s r : Value, AssignAgrees Value.bitand Value.bitand_assign s r) ∧
    (∀ s r : Value, AssignAgrees Value.bitor Value.bitor_assign s r) ∧
    (∀ s r : Value, AssignAgrees Value.bitxor Value.bitxor_assign s r) ∧
    (∀ s : Value, ∀ b : ℚ, AssignAgrees Value.mul Value.mul_assign s (Value.Real b)) ∧
    (∀ s : Value, ∀ t : String, Value.mul_assign s (Value.Str t) =
      (Except.error (Error.InvalidOperandsBinary Operator.AssignMultiply
        s (Value.Str t)), s)) := by
  refine ⟨?_, ?_, ?_, ?_, ?_, ?_, ?_, ?_⟩
  · intro s r
    cases s <;> cases r <;> simp [AssignAgrees, Value.add, Value.add_assign]
  · intro s r
    cases s <;> cases r <;> simp [AssignAgrees, Value.sub, Value.sub_assign]
  · intro s r
    cases s <;> cases r <;> simp [AssignAgrees, Value.div, Value.div_assign]
  · intro s r
    cases s <;> cases r <;> simp [AssignAgrees, Value.bitand, Value.bitand_assign]
  · intro s r
    cases s <;> cases r <;> simp [AssignAgrees, Value.bitor, Value.bitor_assign]
  · intro s r
    cases s <;> cases r <;> simp [AssignAgrees, Value.bitxor, Value.bitxor_assign]
  · intro s b
    cases s <;> simp [AssignAgrees, Value.mul, Value.mul_assign]
  · intro s t
    cases s <;> rfl

/-- Witness for C2 at `add` on two reals: the assign form stores the
operator result. -/
theorem c2_witness : (Value.add_assign (Value.Real 1) (Value.Real 2)).2 = Value.Real 3 :=
  (c2_assign_forms_agree.1 (Value.Real 1) (Value.Real 2)).2 (Value.Real 3)
    (by simp only [Value.add]; norm_num)

/-- C3 counterexample: `a = 0` and `b = 10 ^ (-20)` are within the
`1e-14` tolerance, yet `gml_lt` returns `Real(TRUE)` (the strict
comparators use no epsilon), not `Real(FALSE)` as the claim requires. -/
theorem c3_counterexample :
    |(0 : ℚ) - 1 / 10 ^ 20| ≤ eps ∧
    Value.gml_lt (Value.Real 0) (Value.Real (1 / 10 ^ 20)) =
      Except.ok (Value.Real TRUE) := by
  constructor
  · rw [zero_sub, abs_neg, abs_of_nonneg (by norm_num)]
    norm_num [eps]
  · simp only [Value.gml_lt]
    rw [if_pos (by norm_num)]

/-- C3 amended: for reals within the `1e-14` tolerance, `gml_eq`
returns `TRUE`, `gml_ne` returns `FALSE`, and `gml_lte` and `gml_gte`
return `TRUE`; the strict comparators `gml_lt` and `gml_gt` use plain
comparison with no epsilon, so they return `TRUE` exactly when the
strict order holds, even inside the tolerance. -/
theorem c3_epsilon_relations (a b : ℚ) (h : |a - b| ≤ eps) :
    Value.gml_eq (Value.Real a) (Value.Real b) = Except.ok (Value.Real TRUE) ∧
    Value.gml_ne (Value.Real a) (Value.Real b) = Except.ok (Value.Real FALSE) ∧
    Value.gml_lte (Value.Real a) (Value.Real b) = Except.ok (Value.Real TRUE) ∧
    Value.gml_gte (Value.Real a) (Value.Real b) = Except.ok (Value.Real TRUE) ∧
    Value.gml_lt (Value.Real a) (Value.Real b) =
      Except.ok (Value.Real (if a < b then TRUE else FALSE)) ∧
    Value.gml_gt (Value.Real a) (Value.Real b) =
      Except.ok (Value.Real (if a > b then TRUE else FALSE)) := by
  refine ⟨?_, ?_, ?_, ?_, ?_, ?_⟩
  · simp only [Value.gml_eq]
    rw [if_pos h]
  · simp only [Value.gml_ne]
    rw [if_neg (not_lt.mpr h)]
  · simp only [Value.gml_lte]
    rw [if_pos (Or.inr h)]
  · simp only [Value.gml_gte]
    rw [if_pos (Or.inr h)]
  · simp only [Value.gml_lt]
    split_ifs <;> rfl
  · simp only [Value.gml_gt]
    split_ifs <;> rfl

/-- Witness for C3 at `a = b = 0`. -/
theorem c3_witness :
    Value.gml_eq (Value.Real 0) (Value.Real 0) = Except.ok (Value.Real TRUE) ∧
    Value.gml_lte (Value.Real 0) (Value.Real 0) = Except.ok (Value.Real TRUE) := by
  have h : |(0 : ℚ) - 0| ≤ eps := by norm_num [eps]
  exact ⟨(c3_epsilon_relations 0 0 h).1, (c3_epsilon_relations 0 0 h).2.2.1⟩

/-- C4: on two reals, `gml_lte` and `gml_gte` cannot both return
`Real(FALSE)` — at least one of them returns `Real(TRUE)`. -/
theorem c4_lte_gte_consistency (a b : ℚ) :
    Value.gml_lte (Value.Real a) (Value.Real b) = Except.ok (Value.Real TRUE) ∨
    Value.gml_gte (Value.Real a) (Value.Real b) = Except.ok (Value.Real TRUE) := by
  rcases lt_trichotomy a b with h | h | h
  · left
    simp only [Value.gml_lte]
    rw [if_pos (Or.inl h)]
  · left
    simp only [Value.gml_lte]
    rw [if_pos (Or.inr (by rw [h, sub_self, abs_zero]; norm_num [eps]))]
  · right
    simp only [Value.gml_gte]
    rw [if_pos (Or.inl h)]

/-- C5: `almost_equals` applied to any `Value` and a clone of it (a
clone shares the string buffer and bit-copies the real, so it is the
identical value) returns `true`. -/
theorem c5_almost_equals_self (v : Value) : Value.almost_equals v v = true := by
  cases v with
  | Real a =>
    simp only [Value.almost_equals, sub_self, abs_zero, decide_eq_true_eq]
    norm_num [eps]
  | Str s => simp [Value.almost_equals]

/-- C6: `mul` with a real left operand and a string right operand
repeats the string `round(lhs)` times when that count is positive and
yields the empty string otherwise; a string left operand always yields
the invalid binary operands error tagged `Multiply`, whatever the right
operand. -/
theorem c6_mul_real_string (lhs : ℚ) (s : String) :
    (0 < Value.round (Value.Real lhs) →
      Value.mul (Value.Real lhs) (Value.Str s) =
        Except.ok (Value.Str (strRepeat s (Value.round (Value.Real lhs)).toNat))) ∧
    (Value.round (Value.Real lhs) ≤ 0 →
      Value.mul (Value.Real lhs) (Value.Str s) = Except.ok (Value.Str "")) ∧
    Value.mul (Value.Real 3) (Value.Str "ab") = Except.ok (Value.Str "ababab") ∧
    Value.mul (Value.Real 0) (Value.Str "ab") = Except.ok (Value.Str "") ∧
    Value.mul (Value.Real (-2)) (Value.Str "ab") = Except.ok (Value.Str "") ∧
    (∀ y : Value, Value.mul (Value.Str s) y =
      Except.error (Error.InvalidOperandsBinary Operator.Multiply (Value.Str s) y)) := by
  refine ⟨?_, ?_, ?_, ?_, ?_, fun y => by cases y <;> rfl⟩
  · intro h
    simp only [Value.round] at h
    simp only [Value.mul, Value.round]
    rw [if_pos h]
  · intro h
    simp only [Value.round] at h
    simp only [Value.mul]
    rw [if_neg (not_lt.mpr h)]
  · simp only [Value.mul]
    rw [show ieee_round 3 = 3 from
      ieee_round_eq_of_bounds _ _ (by norm_num) (by norm_num) (by norm_num)]
    rfl
  · simp only [Value.mul]
    rw [show ieee_round 0 = 0 from
      ieee_round_eq_of_bounds _ _ (by norm_num) (by norm_num) (by norm_num)]
    rfl
  · simp only [Value.mul]
    rw [show ieee_round (-2) = -2 from
      ieee_round_eq_of_bounds_neg _ _ (by norm_num) (by push_cast; norm_num)
        (by push_cast; norm_num)]
    rfl

/-- Witness for C6 at `lhs = 3`, `s = "ab"`. -/
theorem c6_witness :
    Value.mul (Value.Real 3) (Value.Str "ab") =
      Except.ok (Value.Str (strRepeat "ab" (Value.round (Value.Real 3)).toNat)) :=
  (c6_mul_real_string 3 "ab").1 (by
    rw [show Value.round (Value.Real 3) = 3 from
      ieee_round_eq_of_bounds _ _ (by norm_num) (by norm_num) (by norm_num)]
    decide)

/-- C7: the boolean operators always succeed on every variant
combination and return `TRUE` or `FALSE` by applying the truthiness
rule (a real is truthy iff it is at least `0.5`; a string is never
truthy) to each operand independently; the code truthiness test
`is_truthy` agrees with that rule. -/
theorem c7_bool_ops_total (a b : Value) :
    Value.is_truthy a = decide (truthyP a) ∧
    Value.bool_and a b =
      Except.ok (Value.Real (if truthyP a ∧ truthyP b then TRUE else FALSE)) ∧
    Value.bool_or a b =
      Except.ok (Value.Real (if truthyP a ∨ truthyP b then TRUE else FALSE)) ∧
    Value.bool_xor a b =
      Except.ok (Value.Real (if truthyP a ↔ truthyP b then FALSE else TRUE)) := by
  have hd : ∀ v : Value, Value.is_truthy v = decide (truthyP v) := by
    intro v
    cases v <;> rfl
  refine ⟨hd a, ?_, ?_, ?_⟩ <;>
    simp only [Value.bool_and, Value.bool_or, Value.bool_xor, hd] <;>
    by_cases hA : truthyP a <;> by_cases hB : truthyP b <;>
    simp [hA, hB, TRUE, FALSE]

/-- C8: whenever an assign-form operator fails, the destination slot
afterwards holds exactly its initial value. -/
theorem c8_assign_error_preserves_slot (slot rhs : Value) (e : Error) :
    ((Value.add_assign slot rhs).1 = Except.error e →
      (Value.add_assign slot rhs).2 = slot) ∧
    ((Value.sub_assign slot rhs).1 = Except.error e →
      (Value.sub_assign slot rhs).2 = slot) ∧
    ((Value.mul_assign slot rhs).1 = Except.error e →
      (Value.mul_assign slot rhs).2 = slot) ∧
    ((Value.div_assign slot rhs).1 = Except.error e →
      (Value.div_assign slot rhs).2 = slot) ∧
    ((Value.bitand_assign slot rhs).1 = Except.error e →
      (Value.bitand_assign slot rhs).2 = slot) ∧
    ((Value.bitor_assign slot rhs).1 = Except.error e →
      (Value.bitor_assign slot rhs).2 = slot) ∧
    ((Value.bitxor_assign slot rhs).1 = Except.error e →
      (Value.bitxor_assign slot rhs).2 = slot) := by
  cases slot <;> cases rhs <;>
    simp [Value.add_assign, Value.sub_assign, Value.mul_assign, Value.div_assign,
      Value.bitand_assign, Value.bitor_assign, Value.bitxor_assign]

/-- Witness for C8: a failing `add_assign` leaves the real slot as it
was. -/
theorem c8_witness : (Value.add_assign (Value.Real 1) (Value.Str "x")).2 = Value.Real 1 :=
  (c8_assign_error_preserves_slot (Value.Real 1) (Value.Str "x")
    (Error.InvalidOperandsBinary Operator.AssignAdd (Value.Real 1) (Value.Str "x"))).1 rfl

/-- C9 counterexample: on two real operands with rounded shift count
`32`, the host 32-bit shift overflows (a debug-build panic, a masked
shift amount in release builds), modelled as `none` — `shl` does not
return `Ok` with an unmasked shift result for every shift count. -/
theorem c9_counterexample : Value.shl (Value.Real 1) (Value.Real 32) = none := by
  simp only [Value.shl, i32_shl]
  rw [show ieee_round 32 = 32 from
    ieee_round_eq_of_bounds _ _ (by norm_num) (by norm_num) (by norm_num)]
  rw [if_neg (by decide)]
  rfl

/-- C9 amended: on two real operands whose rounded shift count lies in
`[0, 32)`, `shl` and `shr` complete and return `Ok` with the 32-bit
shifted real result, never an error; outside that range the host shift
operator itself overflows, so no result is produced. -/
theorem c9_shift_in_range (a b : ℚ) (h0 : 0 ≤ Value.round (Value.Real b))
    (h1 : Value.round (Value.Real b) < 32) :
    Value.shl (Value.Real a) (Value.Real b) =
      some (Except.ok (Value.Real
        ((asI32 (Value.round (Value.Real a) *
          2 ^ (Value.round (Value.Real b)).toNat) : ℤ) : ℚ))) ∧
    Value.shr (Value.Real a) (Value.Real b) =
      some (Except.ok (Value.Real
        ((Int.fdiv (Value.round (Value.Real a))
          (2 ^ (Value.round (Value.Real b)).toNat) : ℤ) : ℚ))) := by
  constructor
  · simp only [Value.shl, i32_shl]
    rw [if_pos ⟨h0, h1⟩]
    rfl
  · simp only [Value.shr, i32_shr]
    rw [if_pos ⟨h0, h1⟩]
    rfl

/-- Witness for C9 at `1 shl 5 = 32`. -/
theorem c9_witness :
    Value.shl (Value.Real 1) (Value.Real 5) = some (Except.ok (Value.Real 32)) := by
  have h5 : Value.round (Value.Real 5) = 5 :=
    ieee_round_eq_of_bounds _ _ (by norm_num) (by norm_num) (by norm_num)
  have h1 : Value.round (Value.Real 1) = 1 :=
    ieee_round_eq_of_bounds _ _ (by norm_num) (by norm_num) (by norm_num)
  have hmain := (c9_shift_in_range 1 5 (by rw [h5]; decide) (by rw [h5]; decide)).1
  rw [hmain, h1, h5]
  rw [show asI32 ((1 : ℤ) * 2 ^ ((5 : ℤ)).toNat) = 32 by decide]
  norm_num

end GML
